import Mathlib

/-!
Verification of the `ryobi_garage` Home Assistant integration against its
natural-language specification.

The development shallowly embeds the Python source
(`custom_components/ryobi_garage/ryobiapi.py`, `gdodevice.py`, `cover.py`) in
Lean.  JSON values decoded by `json.loads` are modelled by the inductive type
`JVal`; Python dictionaries appearing in the source (all of which are decoded
JSON objects or the `garage_state` attribute dictionary) are association lists
with string keys, matching CPython's insertion-ordered dictionaries.  Python
runtime exceptions raised by the embedded code paths (`KeyError`, `TypeError`,
`IndexError`, `json.JSONDecodeError`) are modelled by `Except PyErr`.

External effects (the `websocket` library, `httpx`, the wall clock and the
peer) are modelled as explicit environment oracles; the visible side effects
performed by the controller (socket sends/closes, spawning the socket thread,
subscriber notification, the error/debug log lines the spec refers to) are
recorded in an event trace.  The embedding is the single-threaded
interleaving in which no asynchronous callback fires while one of the
embedded coroutines runs, except at the points where the source itself polls
the shared `socket_state` field.
-/

namespace RyobiGarage

/-- Python exceptions that the embedded code paths can raise. -/
inductive PyErr where
  | keyError
  | typeError
  | indexError
  | jsonDecodeError
deriving Repr, DecidableEq

/-- A decoded JSON value (the result of `json.loads`), also used for the
values stored inside the `garage_state` dictionary.  Object fields model
CPython's insertion-ordered string-keyed dictionaries. -/
inductive JVal where
  | null
  | bool (b : Bool)
  | num (n : Int)
  | str (s : String)
  | arr (elems : List JVal)
  | obj (fields : List (String × JVal))

/-- First-match lookup in a string-keyed dictionary (keys are unique in
dictionaries produced by `json.loads`). -/
def lookup? (fs : List (String × JVal)) (k : String) : Option JVal :=
  match fs.find? (fun p => p.1 == k) with
  | some p => some p.2
  | none => none

/-- `d[k] = v` on a Python dictionary: replace the value of an existing key in
place, otherwise append the new key (CPython insertion order). -/
def dictSet (fs : List (String × JVal)) (k : String) (v : JVal) :
    List (String × JVal) :=
  match fs with
  | [] => [(k, v)]
  | (k', v') :: rest =>
      if k' == k then (k', v) :: rest else (k', v') :: dictSet rest k v

/-- Substring occurrence on character lists (structural recursion, so that
concrete instances reduce inside the kernel). -/
def containsSub (sub : List Char) : List Char → Bool
  | [] => sub.isEmpty
  | x :: rest => sub.isPrefixOf (x :: rest) || containsSub sub rest

/-- Python `sub in s` on strings (substring test; the empty string is a
substring of everything, as in Python). -/
def strContains (s sub : String) : Bool :=
  containsSub sub.data s.data

/-- Split a character list at every occurrence of the separator character
(CPython `str.split` with a one-character separator: `"".split(".") = [""]`,
`"a.".split(".") = ["a", ""]`). -/
def splitOnChar (c : Char) : List Char → List (List Char)
  | [] => [[]]
  | x :: rest =>
    let r := splitOnChar c rest
    if x = c then [] :: r
    else
      match r with
      | [] => [[x]]
      | h :: t => (x :: h) :: t

/-- Python `key.split(".")`. -/
def pySplitDot (s : String) : List String :=
  (splitOnChar (Char.ofNat 46) s.data).map (fun cs => String.mk cs)

/-- Python `==` restricted to the comparisons the embedded code performs: every
comparison in the source has a string constant (or the string `device_id`) on
one side, and Python's `str.__eq__` returns `False` for any non-string other
operand.  Scalar cross-comparisons follow Python (`True == 1`). -/
def pyEq : JVal → JVal → Bool
  | .str a, .str b => a == b
  | .num a, .num b => a == b
  | .bool a, .bool b => a == b
  | .num a, .bool b => a == (if b then (1 : Int) else 0)
  | .bool a, .num b => (if a then (1 : Int) else 0) == b
  | .null, .null => true
  | _, _ => false

/-- Python truthiness of a decoded JSON value. -/
def pyTruthy : JVal → Bool
  | .null => false
  | .bool b => b
  | .num n => n != 0
  | .str s => s != ""
  | .arr xs => !xs.isEmpty
  | .obj fs => !fs.isEmpty

/-- Python `k in c` for a string `k`: key membership for dictionaries, element
equality for lists, substring test for strings; `TypeError` on non-iterable
values. -/
def pyContains (c : JVal) (k : String) : Except PyErr Bool :=
  match c with
  | .obj fs => .ok (lookup? fs k).isSome
  | .arr xs => .ok (xs.any (fun x => pyEq x (.str k)))
  | .str s => .ok (strContains s k)
  | _ => .error .typeError

/-- Python list indexing `xs[i]`: negative indices count from the end,
anything else out of range raises `IndexError`. -/
def pyIndex (xs : List JVal) (i : Int) : Except PyErr JVal :=
  let j : Int := if i < 0 then i + xs.length else i
  if 0 ≤ j ∧ j < xs.length then .ok (xs.getD j.toNat .null)
  else .error .indexError

/-- Python string indexing `s[i]` (yields a one-character string). -/
def pyStrIndex (s : String) (i : Int) : Except PyErr JVal :=
  let cs := s.data
  let j : Int := if i < 0 then i + cs.length else i
  if 0 ≤ j ∧ j < cs.length then .ok (.str (String.mk [cs.getD j.toNat ' ']))
  else .error .indexError

/-- Python subscription `c[k]`: dictionary lookup (`KeyError` when absent,
`TypeError` for unhashable keys), list/string indexing (`bool` keys coerce to
ints), `TypeError` on non-subscriptable values. -/
def pySubscript (c : JVal) (k : JVal) : Except PyErr JVal :=
  match c, k with
  | .obj fs, .str s =>
      match lookup? fs s with
      | some v => .ok v
      | none => .error .keyError
  | .obj _, .num _ => .error .keyError
  | .obj _, .bool _ => .error .keyError
  | .obj _, .null => .error .keyError
  | .obj _, _ => .error .typeError
  | .arr xs, .num i => pyIndex xs i
  | .arr xs, .bool b => pyIndex xs (if b then 1 else 0)
  | .arr _, _ => .error .typeError
  | .str s, .num i => pyStrIndex s i
  | .str s, .bool b => pyStrIndex s (if b then 1 else 0)
  | .str _, _ => .error .typeError
  | _, _ => .error .typeError

/-- `GdoDevice.current_state` (gdodevice.py lines 113-118): when the
`garage_state` dictionary has a `doorState` entry, evaluate
`garage_state["doorState"]["enum"][garage_state["doorState"]["value"]]`,
store it under `["doorState"]["state"]` and return it; otherwise the Python
property implicitly returns `None`.  The result pairs the possibly-updated
`garage_state` with the returned value. -/
def current_state (gs : List (String × JVal)) :
    Except PyErr (List (String × JVal) × JVal) :=
  match lookup? gs "doorState" with
  | none => .ok (gs, .null)
  | some ds =>
    match pySubscript ds (.str "enum") with
    | .error e => .error e
    | .ok en =>
      match pySubscript ds (.str "value") with
      | .error e => .error e
      | .ok v =>
        match pySubscript en v with
        | .error e => .error e
        | .ok s =>
          match ds with
          | .obj dsf => .ok (dictSet gs "doorState" (.obj (dictSet dsf "state" s)), s)
          | _ => .error .typeError

/-- `RyobiGarageDoor.current_cover_position` (cover.py lines 107-115):
`-1` when `current_state == "Closed"`, `100` when it is `"Open"`, otherwise
the raw `garage_state["doorPosition"]["value"]` field.  The property reads
`self.device.current_state` twice, threading the state mutation that the
`current_state` property performs. -/
def current_cover_position (gs : List (String × JVal)) :
    Except PyErr (List (String × JVal) × JVal) :=
  match current_state gs with
  | .error e => .error e
  | .ok (gs1, s1) =>
    if pyEq s1 (.str "Closed") then .ok (gs1, .num (-1))
    else
      match current_state gs1 with
      | .error e => .error e
      | .ok (gs2, s2) =>
        if pyEq s2 (.str "Open") then .ok (gs2, .num 100)
        else
          match lookup? gs2 "doorPosition" with
          | none => .error .keyError
          | some dp =>
            match pySubscript dp (.str "value") with
            | .error e => .error e
            | .ok v => .ok (gs2, v)

/-- The default door-state enum table hard-coded in `GdoDevice.__init__`
(gdodevice.py line 74). -/
def defaultDoorEnum : List JVal :=
  [.str "Closed", .str "Open", .str "Closing", .str "Opening", .str "Fault"]

/-! ## HTTP client (`RyobiApi.send_http`, `RyobiApi.login`) -/

/-- Outcome of one `httpx` request attempt, supplied by the environment:
a 200 response with a decoded JSON body, a 401, some other status code, or a
raised `httpx.RequestError`. -/
inductive HttpOutcome where
  | success (body : JVal)
  | unauthorized
  | badStatus (code : Nat)
  | netError

/-- The dictionary `send_http` returns on a 401 response
(ryobiapi.py lines 244-247). -/
def err401Dict : JVal :=
  .obj [("msg", .str "error"),
        ("details", .str "Invalid login credentials HTTP 401 Unothorized. Skipped retry")]

/-- The dictionary `send_http` returns after exhausting `N_RETRY` attempts
(ryobiapi.py line 265). -/
def errRetryDict : JVal :=
  .obj [("msg", .str "error"), ("details", .str "Failed after 5 retry")]

/-- `N_RETRY` (ryobiapi.py line 33). -/
def N_RETRY : Nat := 5

/-- `WS_RETRY` (ryobiapi.py line 34). -/
def WS_RETRY : Nat := 10

/-- The retry loop of `RyobiApi.send_http` (ryobiapi.py lines 231-265),
unrolled over the remaining attempts.  Returns the dictionary handed back to
the caller together with the number of HTTP requests actually issued: a 200
or a 401 response returns immediately, other statuses and network errors
consume one attempt and retry. -/
def send_http_go (responses : Nat → HttpOutcome) : Nat → Nat → JVal × Nat
  | attempt, 0 => (errRetryDict, attempt)
  | attempt, rem + 1 =>
    match responses attempt with
    | .success body => (body, attempt + 1)
    | .unauthorized => (err401Dict, attempt + 1)
    | .badStatus _ => send_http_go responses (attempt + 1) rem
    | .netError => send_http_go responses (attempt + 1) rem

/-- `RyobiApi.send_http` (ryobiapi.py lines 224-265): up to `N_RETRY`
attempts. -/
def send_http (responses : Nat → HttpOutcome) : JVal × Nat :=
  send_http_go responses 0 N_RETRY

/-- The response-parsing tail of `RyobiApi.login` (ryobiapi.py lines 70-88):
`resp["result"]` is subscripted unconditionally, then `"_id" in resp["result"]`
decides success; on the success path `resp["result"]["auth"]` is subscripted
and `"apiKey"` membership decides the final boolean. -/
def login_parse (resp : JVal) : Except PyErr Bool :=
  match pySubscript resp (.str "result") with
  | .error e => .error e
  | .ok r =>
    match pyContains r "_id" with
    | .error e => .error e
    | .ok true =>
      match pySubscript r (.str "auth") with
      | .error e => .error e
      | .ok auth =>
        match pyContains auth "apiKey" with
        | .error e => .error e
        | .ok true =>
          match pySubscript auth (.str "apiKey") with
          | .error e => .error e
          | .ok _ => .ok true
        | .ok false => .ok false
    | .ok false => .ok false

/-- `RyobiApi.login` (ryobiapi.py lines 55-88): `send_http` followed by
response parsing.  The pair records the parse outcome (with any Python
exception it raises) and the number of HTTP requests issued. -/
def login (responses : Nat → HttpOutcome) : Except PyErr Bool × Nat :=
  let (resp, n) := send_http responses
  (login_parse resp, n)

/-! ## Merge engine (`RyobiWssCtrl.parse_device_update`) -/

/-- Observable effects of the embedded controller code: the log lines the
spec's error-handling language refers to, subscriber notification, and the
socket operations. -/
inductive Event where
  | logReceived
  | logWrongDevice
  | logUnknownModule
  | logUnknownMessage
  | notify
  | wsClose
  | wsSend (frame : JVal)
  | connectAttempt
  | openSocketThread

/-- Discriminators used to state trace properties. -/
def Event.isNotify : Event → Bool
  | .notify => true
  | _ => false

def Event.isWsSend : Event → Bool
  | .wsSend _ => true
  | _ => false

def Event.isConnectAttempt : Event → Bool
  | .connectAttempt => true
  | _ => false

/-- The inner loop `for item in update[key]: group[item] = update[key][item]`
for a dictionary-valued delta: leaf-wise writes in iteration order. -/
def applyItems (group : List (String × JVal)) (items : List (String × JVal)) :
    List (String × JVal) :=
  items.foldl (fun g p => dictSet g p.1 p.2) group

/-- One `garageDoor` key of an update (ryobiapi.py lines 467-469):
`self.garage_state[module_name][item] = update[key][item]` for each item.
An empty delta performs no iteration (hence no reads); a dictionary delta
reads `garage_state[module_name]` (`KeyError` when absent, `TypeError` when
it is not a dictionary) and writes each leaf; iterating a non-empty
non-dictionary delta raises `TypeError` before any write (string and list
deltas fail when the first item is used as a subscript; list deltas with
integer items would address an int-keyed dictionary, which the string-keyed
model does not represent and which the integration's `garage_state` never
contains). -/
def applyGroupUpdate (gs : List (String × JVal)) (module_name : String)
    (v : JVal) : Except PyErr (List (String × JVal)) :=
  match v with
  | .obj [] => .ok gs
  | .obj items =>
    match lookup? gs module_name with
    | none => .error .keyError
    | some (.obj group) => .ok (dictSet gs module_name (.obj (applyItems group items)))
    | some _ => .error .typeError
  | .str "" => .ok gs
  | .arr [] => .ok gs
  | _ => .error .typeError

/-- One `garageLight` key of an update (ryobiapi.py lines 471-473):
`self.garage_state["garageLight"][module_name][item] = update[key][item]`,
nested one level deeper than the door case. -/
def applyLightUpdate (gs : List (String × JVal)) (module_name : String)
    (v : JVal) : Except PyErr (List (String × JVal)) :=
  match v with
  | .obj [] => .ok gs
  | .obj items =>
    match lookup? gs "garageLight" with
    | none => .error .keyError
    | some (.obj gl) =>
      match lookup? gl module_name with
      | none => .error .keyError
      | some (.obj group) =>
          .ok (dictSet gs "garageLight"
                (.obj (dictSet gl module_name (.obj (applyItems group items)))))
      | some _ => .error .typeError
    | some _ => .error .typeError
  | .str "" => .ok gs
  | .arr [] => .ok gs
  | _ => .error .typeError

/-- The key loop of `parse_device_update` (ryobiapi.py lines 459-477):
`topic`, `varName` and `id` are skipped; `key.split(".")[1]` raises
`IndexError` for undotted keys; keys containing `garageDoor` or `garageLight`
are applied leaf-wise; other keys are logged and dropped.  A raised exception
aborts the loop but keeps the writes already performed (in-place dictionary
mutation). -/
def parseKeys (gs : List (String × JVal)) :
    List (String × JVal) → List (String × JVal) × List Event × Option PyErr
  | [] => (gs, [], none)
  | (k, v) :: rest =>
    if k == "topic" || k == "varName" || k == "id" then parseKeys gs rest
    else
      match (pySplitDot k).get? 1 with
      | none => (gs, [], some .indexError)
      | some module_name =>
        if strContains k "garageDoor" then
          match applyGroupUpdate gs module_name v with
          | .error e => (gs, [], some e)
          | .ok gs' => parseKeys gs' rest
        else if strContains k "garageLight" then
          match applyLightUpdate gs module_name v with
          | .error e => (gs, [], some e)
          | .ok gs' => parseKeys gs' rest
        else
          let (gsF, evs, err) := parseKeys gs rest
          (gsF, .logUnknownModule :: evs, err)

/-- `RyobiWssCtrl.parse_device_update` (ryobiapi.py lines 453-477): reject an
update whose `varName` differs from this controller's `device_id` (logged,
state untouched, returns normally), otherwise apply every key of the update.
The result carries the (possibly partially) updated `garage_state`, the
emitted log events and the exception, if one was raised. -/
def parse_device_update (device_id : String) (gs : List (String × JVal))
    (update : JVal) : List (String × JVal) × List Event × Option PyErr :=
  match pySubscript update (.str "varName") with
  | .error e => (gs, [], some e)
  | .ok v =>
    if !pyEq (.str device_id) v then (gs, [.logWrongDevice], none)
    else
      match update with
      | .obj fields => parseKeys gs fields
      | _ => (gs, [], some .typeError)

/-! ## Session controller (`RyobiWssCtrl`) -/

/-- `socket_state` values: `SOCK_CONNECTED = "Open"`, `SOCK_CLOSE = "Close"`,
`SOCK_ERROR = "Error"` (ryobiapi.py lines 13-15). -/
inductive SockState where
  | sockConnected
  | sockClose
  | sockError
deriving Repr, DecidableEq

/-- The mutable fields of a `RyobiWssCtrl` instance that the embedded methods
touch, plus a logical clock `time` used to index the environment oracles (it
advances by one at every interaction with the outside world). -/
structure CtrlState where
  socket_state : SockState
  sent_counter : Nat
  garage_state : List (String × JVal)
  device_id : String
  username : String
  api_key : Option String
  time : Nat

/-- Environment oracles for the WebSocket layer, indexed by the controller's
logical clock: the outcome of `login()` when no api key is present, whether
constructing/starting the socket raises `websocket.WebSocketException`,
whether the socket thread reports alive, the asynchronous `socket_state`
value written by the `on_open`/`on_close`/`on_error` callbacks as observed at
a poll of the shared field (`none` when no callback has fired), and whether a
`ws.send` succeeds (otherwise it raises
`WebSocketConnectionClosedException`). -/
structure WssEnv where
  loginOk : Bool
  openRaises : Nat → Bool
  threadAlive : Nat → Bool
  pollSock : Nat → Option SockState
  sendOk : Nat → Bool

/-- Truthiness of `self.api_key` (`None` or an empty string are falsy). -/
def apiKeyTruthy : Option String → Bool
  | none => false
  | some s => s != ""

/-- `RyobiWssCtrl.check_credentials` (ryobiapi.py lines 289-301): succeed when
an api key is present, otherwise report the outcome of `login()` (the
credential fields a successful login would store are not tracked by the
model; no claim depends on them). -/
def check_credentials (env : WssEnv) (st : CtrlState) : Bool :=
  if apiKeyTruthy st.api_key then true
  else env.loginOk

/-- `RyobiWssCtrl.open_wss_thread` (ryobiapi.py lines 303-340): check
credentials, construct the `WebSocketApp` and start its thread.  A
`WebSocketException` sets `socket_state = SOCK_ERROR` and returns failure;
otherwise the thread is started (recorded in the trace) and the result is the
thread's `is_alive()` report. -/
def open_wss_thread (env : WssEnv) (st : CtrlState) :
    Bool × CtrlState × List Event :=
  if !check_credentials env st then (false, st, [])
  else
    let t := st.time
    let st1 := {st with time := t + 1}
    if env.openRaises t then (false, {st1 with socket_state := .sockError}, [])
    else if env.threadAlive t then (true, st1, [.openSocketThread])
    else (false, st1, [.openSocketThread])

/-- The Ryobi auth frame built by `authenticate_with_server`
(ryobiapi.py lines 345-352). -/
def authFrame (username : String) (apiKey : Option String) : JVal :=
  .obj [("jsonrpc", .str "2.0"), ("id", .num 3),
        ("method", .str "srvWebSocketAuth"),
        ("params", .obj [("varName", .str username),
                         ("apiKey", match apiKey with
                                    | some k => .str k
                                    | none => .null)])]

/-- The subscribe frame built by `subscribe_to_notifications`
(ryobiapi.py lines 357-364). -/
def subscribeFrame (d_id : String) : JVal :=
  .obj [("jsonrpc", .str "2.0"), ("id", .num 3),
        ("method", .str "wskSubscribe"),
        ("params", .obj [("topic", .str (d_id ++ ".wskAttributeUpdateNtfy"))])]

/-- The watchdog prologue of `RyobiWssCtrl.publish_wss`
(ryobiapi.py lines 486-492): once `sent_counter` reaches 5 consecutive
unacknowledged sends, reset the counter, force-close the socket and mark the
state `SOCK_CLOSE`. -/
def watchdogCheck (st : CtrlState) : CtrlState × List Event :=
  if st.sent_counter ≥ 5 then
    ({st with sent_counter := 0, socket_state := .sockClose}, [.wsClose])
  else (st, [])

mutual

/-- `RyobiWssCtrl.publish_wss` (ryobiapi.py lines 479-517): watchdog check,
then up to `N_RETRY` attempts to send the serialized frame, reconnecting via
`connect_wss` whenever `socket_state` is not `SOCK_CONNECTED`.  `fuel` bounds
the depth of the mutual `publish_wss`/`connect_wss` recursion (which the
source leaves unbounded); every theorem below supplies fuel strictly larger
than the depth its hypotheses can reach, so the fuel-exhaustion branches are
never taken. -/
def publish_wss (fuel : Nat) (env : WssEnv) (msg : JVal) (st : CtrlState) :
    Bool × CtrlState × List Event :=
  let p := watchdogCheck st
  let r := publish_wss_loop fuel env msg N_RETRY p.1
  (r.1, r.2.1, p.2 ++ r.2.2)
termination_by (fuel, 2, 0)

/-- The `for attempt in range(N_RETRY)` loop of `publish_wss`
(ryobiapi.py lines 494-517): when connected, `ws.send` either succeeds
(increment `sent_counter`, return `True`) or raises
`WebSocketConnectionClosedException` (state becomes `SOCK_CLOSE`, the loop
continues); when not connected, `connect_wss` is awaited and the loop
continues.  Exhausting the attempts returns `False`. -/
def publish_wss_loop (fuel : Nat) (env : WssEnv) (msg : JVal) (attempts : Nat)
    (st : CtrlState) : Bool × CtrlState × List Event :=
  match attempts with
  | 0 => (false, st, [])
  | a + 1 =>
    if st.socket_state = .sockConnected then
      let t := st.time
      let st := {st with time := t + 1}
      if env.sendOk t then
        (true, {st with sent_counter := st.sent_counter + 1}, [.wsSend msg])
      else
        let st := {st with socket_state := .sockClose}
        publish_wss_loop fuel env msg a st
    else
      match fuel with
      | 0 => (false, st, [])
      | f + 1 =>
        let c := connect_wss f env st
        let r := publish_wss_loop f env msg a c.2.1
        (r.1, r.2.1, c.2.2 ++ r.2.2)
termination_by (fuel, 1, attempts)

/-- `RyobiWssCtrl.connect_wss` (ryobiapi.py lines 370-391): a no-op returning
`True` when already connected; otherwise open the socket thread and poll the
shared `socket_state` up to `WS_RETRY` times.  The `.connectAttempt` trace
event marks an actual (non-short-circuited) connection attempt. -/
def connect_wss (fuel : Nat) (env : WssEnv) (st : CtrlState) :
    Bool × CtrlState × List Event :=
  if st.socket_state = .sockConnected then (true, st, [])
  else
    let o := open_wss_thread env st
    if o.1 then
      let r := connect_poll fuel env WS_RETRY o.2.1
      (r.1, r.2.1, .connectAttempt :: (o.2.2 ++ r.2.2))
    else (false, o.2.1, .connectAttempt :: o.2.2)
termination_by (fuel, 4, 0)

/-- The `for i in range(WS_RETRY)` loop of `connect_wss`
(ryobiapi.py lines 383-391): at each iteration the shared `socket_state`
(possibly just rewritten by an asynchronous callback, as modelled by
`env.pollSock`) is read; once it reads `SOCK_CONNECTED`, the auth frame is
published and the device topic subscribed, and the call returns `True`
regardless of the outcome of either publish.  Exhausting the polls returns
`False`. -/
def connect_poll (fuel : Nat) (env : WssEnv) (polls : Nat) (st : CtrlState) :
    Bool × CtrlState × List Event :=
  match polls with
  | 0 => (false, st, [])
  | p + 1 =>
    let t := st.time
    let st := {st with time := t + 1,
                       socket_state := (env.pollSock t).getD st.socket_state}
    if st.socket_state = .sockConnected then
      match fuel with
      | 0 => (true, st, [])
      | f + 1 =>
        let a := publish_wss f env (authFrame st.username st.api_key) st
        let s := subscribe_to_notifications f env a.2.1
        (true, s.2.1, a.2.2 ++ s.2.2)
    else connect_poll fuel env p st
termination_by (fuel, 3, polls)

/-- `RyobiWssCtrl.subscribe_to_notifications` (ryobiapi.py lines 354-368):
publish the subscribe frame (result ignored), set
`garage_state["is_available"] = True`, call the subscribers, return `True`. -/
def subscribe_to_notifications (fuel : Nat) (env : WssEnv) (st : CtrlState) :
    Bool × CtrlState × List Event :=
  let p := publish_wss fuel env (subscribeFrame st.device_id) st
  let st := p.2.1
  let st := {st with garage_state := dictSet st.garage_state "is_available" (.bool true)}
  (true, st, p.2.2 ++ [.notify])
termination_by (fuel, 2, 1)

end

/-- `RyobiWssCtrl.send_command` (ryobiapi.py lines 519-529): awaits
`publish_wss` and discards its boolean result (the Python method returns
`None`). -/
def send_command (fuel : Nat) (env : WssEnv) (command : JVal)
    (st : CtrlState) : CtrlState × List Event :=
  let r := publish_wss fuel env command st
  (r.2.1, r.2.2)

/-- `RyobiWssCtrl.on_message` (ryobiapi.py lines 421-451).  The input is the
outcome of `json.loads(msg)` (`.error .jsonDecodeError` for a frame that is
not well-formed JSON).  `self.sent_counter = 0` executes before the decode,
so the returned state carries the reset even when an exception propagates out
of the handler; the second component is the emitted trace, or the exception.
`.logReceived` records the debug log of every successfully decoded frame;
recognised update frames are routed to `parse_device_update` and
`_call_subscriber()` is invoked unconditionally afterwards. -/
def on_message (st : CtrlState) (loadResult : Except PyErr JVal) :
    CtrlState × Except PyErr (List Event) :=
  let st := {st with sent_counter := 0}
  match loadResult with
  | .error e => (st, .error e)
  | .ok message =>
    match pyContains message "method" with
    | .error e => (st, .error e)
    | .ok true =>
      match pySubscript message (.str "method") with
      | .error e => (st, .error e)
      | .ok m =>
        if pyEq m (.str "wskAttributeUpdateNtfy") then
          match pyContains message "params" with
          | .error e => (st, .error e)
          | .ok true =>
            match pySubscript message (.str "params") with
            | .error e => (st, .error e)
            | .ok params =>
              let pr := parse_device_update st.device_id st.garage_state params
              let st := {st with garage_state := pr.1}
              match pr.2.2 with
              | some e => (st, .error e)
              | none => (st, .ok (.logReceived :: (pr.2.1 ++ [.notify])))
          | .ok false => (st, .ok [.logReceived])
        else if pyEq m (.str "authorizedWebSocket") then
          match pySubscript message (.str "params") with
          | .error e => (st, .error e)
          | .ok params =>
            match pySubscript params (.str "authorized") with
            | .error e => (st, .error e)
            | .ok _ => (st, .ok [.logReceived])
        else (st, .ok [.logReceived])
    | .ok false =>
      match pyContains message "result" with
      | .error e => (st, .error e)
      | .ok true =>
        match pySubscript message (.str "result") with
        | .error e => (st, .error e)
        | .ok r =>
          match pyContains r "result" with
          | .error e => (st, .error e)
          | .ok rin =>
            let step1 : Except PyErr Unit :=
              if rin then
                match pySubscript r (.str "result") with
                | .error e => .error e
                | .ok _ => .ok ()
              else .ok ()
            match step1 with
            | .error e => (st, .error e)
            | .ok _ =>
              match pyContains r "authorized" with
              | .error e => (st, .error e)
              | .ok ain =>
                if ain then
                  match pySubscript r (.str "authorized") with
                  | .error e => (st, .error e)
                  | .ok _ => (st, .ok [.logReceived])
                else (st, .ok [.logReceived])
      | .ok false => (st, .ok [.logReceived, .logUnknownMessage])

/-! ## Concrete states used by witnesses and counterexamples -/

/-- The default `garage_state` shape of `GdoDevice.__init__`
(gdodevice.py lines 58-94), restricted to the groups the claims exercise,
with a door-state `value` of `v` and a door position of 42. -/
def sampleState (v : JVal) : List (String × JVal) :=
  [("doorState", .obj [("state", .null), ("lastSet", .null),
      ("lastValue", .null), ("value", v), ("enum", .arr defaultDoorEnum)]),
   ("doorPosition", .obj [("lastSet", .null), ("lastValue", .null),
      ("value", .num 42)]),
   ("garageLight", .obj [("lightState", .obj [("value", .null)]),
      ("lightTimer", .obj [("value", .null)])])]

/-- A controller state watching device `dev1`. -/
def sampleCtrl (v : JVal) : CtrlState :=
  { socket_state := .sockConnected, sent_counter := 2,
    garage_state := sampleState v, device_id := "dev1", username := "u",
    api_key := some "k", time := 0 }

/-- An update-notification frame whose `varName` (`dev2`) differs from the
watching controller's device id (`dev1`). -/
def frameWrongDevice : JVal :=
  .obj [("method", .str "wskAttributeUpdateNtfy"),
        ("params", .obj [("varName", .str "dev2")])]

/-- A well-formed update frame for `dev1` setting the door-state value to 1. -/
def frameGoodUpdate : JVal :=
  .obj [("method", .str "wskAttributeUpdateNtfy"),
        ("params", .obj [("varName", .str "dev1"), ("topic", .str "t"),
                         ("garageDoor_7.doorState", .obj [("value", .num 1)])])]

/-- A decoded JSON object matching none of the three recognised frame shapes
of `on_message`: either its `method` value equals neither
`wskAttributeUpdateNtfy` nor `authorizedWebSocket`, or it has neither a
`method` nor a `result` key. -/
def unrecognizedShape (fields : List (String × JVal)) : Prop :=
  match lookup? fields "method" with
  | some m => pyEq m (.str "wskAttributeUpdateNtfy") = false ∧
              pyEq m (.str "authorizedWebSocket") = false
  | none => lookup? fields "result" = none

/-- `key.split(".")[1]`, the module name extracted by `parse_device_update`. -/
def moduleNameOf (k : String) : Option String := (pySplitDot k).get? 1

/-- Whether some dotted key of the update names the attribute group `g`,
following the key dispatch of `parse_device_update`: a `garageDoor` key names
the group `key.split(".")[1]`, a `garageLight` key names the top-level
`garageLight` group. -/
def touchedGroup (fields : List (String × JVal)) (g : String) : Bool :=
  fields.any (fun p =>
    !(p.1 == "topic" || p.1 == "varName" || p.1 == "id") &&
    (if strContains p.1 "garageDoor" then moduleNameOf p.1 == some g
     else if strContains p.1 "garageLight" then g == "garageLight"
     else false))

/-- `touchedGroup` lifted to an arbitrary update value (a non-object update
names no group). -/
def updTouches : JVal → String → Bool
  | .obj fields, g => touchedGroup fields g
  | _, _ => false

/-- An environment in which the socket layer behaves but no asynchronous
callback ever fires, so a connection attempt never observes
`SOCK_CONNECTED`. -/
def envNoCallbacks : WssEnv :=
  { loginOk := true, openRaises := fun _ => false,
    threadAlive := fun _ => true, pollSock := fun _ => none,
    sendOk := fun _ => true }

/-- An environment in which the `on_open` callback fires before the first
poll of a reconnect started at logical time 0, and every send succeeds. -/
def envQuickReconnect : WssEnv :=
  { loginOk := true, openRaises := fun _ => false,
    threadAlive := fun _ => true,
    pollSock := fun t => if t = 1 then some .sockConnected else none,
    sendOk := fun _ => true }

/-- A controller whose link is up but has accumulated 5 consecutive
unacknowledged sends (the watchdog threshold). -/
def sampleStalledCtrl : CtrlState :=
  { socket_state := .sockConnected, sent_counter := 5, garage_state := [],
    device_id := "dev1", username := "u", api_key := some "k", time := 0 }

/-- A controller whose socket state is `SOCK_CLOSE`. -/
def sampleClosedCtrl : CtrlState :=
  { socket_state := .sockClose, sent_counter := 0, garage_state := [],
    device_id := "dev1", username := "u", api_key := some "k", time := 0 }

/-! ## Dictionary lemmas -/

theorem lookup?_dictSet_self (fs : List (String × JVal)) (k : String)
    (v : JVal) : lookup? (dictSet fs k v) k = some v := by
  induction fs with
  | nil => simp [dictSet, lookup?]
  | cons hd tl ih =>
    by_cases h : hd.1 == k
    · simp [dictSet, lookup?, h]
    · simp only [dictSet, h, if_false, Bool.false_eq_true]
      simpa [lookup?, List.find?, h] using ih

theorem lookup?_dictSet_ne (fs : List (String × JVal)) (k k' : String)
    (v : JVal) (h : k' ≠ k) :
    lookup? (dictSet fs k v) k' = lookup? fs k' := by
  have hkk : (k == k') = false := by
    simpa using fun he => h he.symm
  induction fs with
  | nil => simp [dictSet, lookup?, List.find?, hkk]
  | cons hd tl ih =>
    by_cases hk : hd.1 == k
    · have h1 : hd.1 = k := by simpa using hk
      have hne : (hd.1 == k') = false := by rw [h1]; exact hkk
      simp [dictSet, lookup?, List.find?, hk, hne]
    · by_cases hk' : hd.1 == k'
      · simp [dictSet, lookup?, List.find?, hk, hk']
      · simp only [dictSet, hk, if_false, Bool.false_eq_true]
        simpa [lookup?, List.find?, hk'] using ih

/-! ## Indexing and current_state lemmas (gdodevice.py lines 113-118) -/

/-- `pyIndex` on an in-range non-negative index. -/
theorem pyIndex_in (es : List JVal) (v : Int) (h0 : 0 ≤ v)
    (hlen : v < (es.length : Int)) :
    pyIndex es v = .ok (es.getD v.toNat .null) := by
  have hneg : ¬ v < 0 := by omega
  simp only [pyIndex, if_neg hneg]
  exact if_pos ⟨h0, hlen⟩

/-- `pyIndex` on an in-range negative index wraps (Python semantics). -/
theorem pyIndex_wrap (es : List JVal) (v : Int) (h0 : -(es.length : Int) ≤ v)
    (hneg : v < 0) :
    pyIndex es v = .ok (es.getD (v + es.length).toNat .null) := by
  simp only [pyIndex, if_pos hneg]
  exact if_pos ⟨by omega, by omega⟩

/-- `pyIndex` out of range on either side raises `IndexError`. -/
theorem pyIndex_out (es : List JVal) (v : Int)
    (hout : v < -(es.length : Int) ∨ (es.length : Int) ≤ v) :
    pyIndex es v = .error .indexError := by
  by_cases hneg : v < 0
  · simp only [pyIndex, if_pos hneg]
    exact if_neg (by omega)
  · simp only [pyIndex, if_neg hneg]
    exact if_neg (by omega)

/-- `current_state` with an in-range door-state value: indexes the enum table
and stores the symbolic state. -/
theorem current_state_in_range (gs dsf : List (String × JVal)) (es : List JVal)
    (v : Int) (h1 : lookup? gs "doorState" = some (.obj dsf))
    (h2 : lookup? dsf "enum" = some (.arr es))
    (h3 : lookup? dsf "value" = some (.num v))
    (h0 : 0 ≤ v) (hlen : v < (es.length : Int)) :
    current_state gs =
      .ok (dictSet gs "doorState"
            (.obj (dictSet dsf "state" (es.getD v.toNat .null))),
           es.getD v.toNat .null) := by
  simp only [current_state, pySubscript, h1, h2, h3,
    pyIndex_in es v h0 hlen]

/-- `current_state` with a negative in-range value: Python wraps around. -/
theorem current_state_neg_wrap (gs dsf : List (String × JVal)) (es : List JVal)
    (v : Int) (h1 : lookup? gs "doorState" = some (.obj dsf))
    (h2 : lookup? dsf "enum" = some (.arr es))
    (h3 : lookup? dsf "value" = some (.num v))
    (h0 : -(es.length : Int) ≤ v) (hneg : v < 0) :
    current_state gs =
      .ok (dictSet gs "doorState"
            (.obj (dictSet dsf "state" (es.getD (v + es.length).toNat .null))),
           es.getD (v + es.length).toNat .null) := by
  simp only [current_state, pySubscript, h1, h2, h3,
    pyIndex_wrap es v h0 hneg]

/-- `current_state` with a value out of range on either side raises
`IndexError`. -/
theorem current_state_out_of_range (gs dsf : List (String × JVal))
    (es : List JVal) (v : Int)
    (h1 : lookup? gs "doorState" = some (.obj dsf))
    (h2 : lookup? dsf "enum" = some (.arr es))
    (h3 : lookup? dsf "value" = some (.num v))
    (hout : v < -(es.length : Int) ∨ (es.length : Int) ≤ v) :
    current_state gs = .error .indexError := by
  simp only [current_state, pySubscript, h1, h2, h3, pyIndex_out es v hout]

/-! ## Claim C2 -/

/-- Claim C2, corrected.  For a door-state attribute holding an integer
`value` `v` and an `enum` table `es`: if `0 ≤ v < |es|` the derived symbolic
door state equals `es[v]`; if `-|es| ≤ v < 0` Python's negative indexing
wraps and the derived state equals `es[|es| + v]` without raising; for every
other `v` reading `current_state` raises `IndexError` (so an out-of-range
value is not the crash-free Fault/undefined result the original claim
states). -/
theorem claim_C2_enum_indexing (gs dsf : List (String × JVal)) (es : List JVal)
    (v : Int) (h1 : lookup? gs "doorState" = some (.obj dsf))
    (h2 : lookup? dsf "enum" = some (.arr es))
    (h3 : lookup? dsf "value" = some (.num v)) :
    (0 ≤ v → v < (es.length : Int) →
      current_state gs =
        .ok (dictSet gs "doorState"
              (.obj (dictSet dsf "state" (es.getD v.toNat .null))),
             es.getD v.toNat .null)) ∧
    (-(es.length : Int) ≤ v → v < 0 →
      current_state gs =
        .ok (dictSet gs "doorState"
              (.obj (dictSet dsf "state" (es.getD (v + es.length).toNat .null))),
             es.getD (v + es.length).toNat .null)) ∧
    (v < -(es.length : Int) ∨ (es.length : Int) ≤ v →
      current_state gs = .error .indexError) := by
  refine ⟨fun h0 hlen => ?_, fun h0 hneg => ?_, fun hout => ?_⟩
  · exact current_state_in_range gs dsf es v h1 h2 h3 h0 hlen
  · exact current_state_neg_wrap gs dsf es v h1 h2 h3 h0 hneg
  · exact current_state_out_of_range gs dsf es v h1 h2 h3 hout

/-- Counterexample to claim C2 as stated: with the default five-entry enum
table and `value = 5`, reading `current_state` raises `IndexError` instead of
yielding a Fault/undefined symbolic state. -/
theorem claim_C2_counterexample :
    current_state (sampleState (.num 5)) = .error .indexError := by rfl

/-- Witness for the corrected claim C2 at the concrete default state with
`value = 1`: the hypotheses hold and the derived state is `"Open"`. -/
theorem claim_C2_witness :
    lookup? (sampleState (.num 1)) "doorState" =
      some (.obj [("state", .null), ("lastSet", .null), ("lastValue", .null),
                  ("value", .num 1), ("enum", .arr defaultDoorEnum)]) ∧
    (0 ≤ (1 : Int) → (1 : Int) < (defaultDoorEnum.length : Int) →
      current_state (sampleState (.num 1)) =
        .ok (dictSet (sampleState (.num 1)) "doorState"
              (.obj (dictSet [("state", .null), ("lastSet", .null),
                              ("lastValue", .null), ("value", .num 1),
                              ("enum", .arr defaultDoorEnum)] "state"
                      (defaultDoorEnum.getD (1 : Int).toNat .null))),
             defaultDoorEnum.getD (1 : Int).toNat .null)) :=
  ⟨by rfl,
   (claim_C2_enum_indexing (sampleState (.num 1))
      [("state", .null), ("lastSet", .null), ("lastValue", .null),
       ("value", .num 1), ("enum", .arr defaultDoorEnum)]
      defaultDoorEnum 1 (by rfl) (by rfl) (by rfl)).1⟩

/-! ## Claim C9 -/

/-- Claim C9, confirmed.  Whenever the door-state value is a valid enum index
(so `current_state` evaluates without raising) and a `doorPosition.value`
field is present, the numeric cover position is `-1` (a sentinel outside the
0-100 position scale) when the derived door state is `"Closed"`, `100` (the
maximum scale value) when it is `"Open"`, and the raw device-reported
`doorPosition.value` field otherwise. -/
theorem claim_C9_cover_position (gs dsf : List (String × JVal)) (es : List JVal)
    (v : Int) (dp p : JVal)
    (h1 : lookup? gs "doorState" = some (.obj dsf))
    (h2 : lookup? dsf "enum" = some (.arr es))
    (h3 : lookup? dsf "value" = some (.num v))
    (h0 : 0 ≤ v) (hlen : v < (es.length : Int))
    (hdp : lookup? gs "doorPosition" = some dp)
    (hpv : pySubscript dp (.str "value") = .ok p) :
    (current_cover_position gs).map (fun r => r.2) =
      .ok (if pyEq (es.getD v.toNat .null) (.str "Closed") then .num (-1)
           else if pyEq (es.getD v.toNat .null) (.str "Open") then .num 100
           else p) := by
  have e1 := current_state_in_range gs dsf es v h1 h2 h3 h0 hlen
  have h1' : lookup? (dictSet gs "doorState"
        (.obj (dictSet dsf "state" (es.getD v.toNat .null)))) "doorState" =
      some (.obj (dictSet dsf "state" (es.getD v.toNat .null))) :=
    lookup?_dictSet_self gs "doorState" _
  have h2' : lookup? (dictSet dsf "state" (es.getD v.toNat .null)) "enum" =
      some (.arr es) := by
    rw [lookup?_dictSet_ne dsf "state" "enum" _ (by decide)]; exact h2
  have h3' : lookup? (dictSet dsf "state" (es.getD v.toNat .null)) "value" =
      some (.num v) := by
    rw [lookup?_dictSet_ne dsf "state" "value" _ (by decide)]; exact h3
  have e2 := current_state_in_range _ _ es v h1' h2' h3' h0 hlen
  have hdp2 : lookup? (dictSet (dictSet gs "doorState"
        (.obj (dictSet dsf "state" (es.getD v.toNat .null)))) "doorState"
        (.obj (dictSet (dictSet dsf "state" (es.getD v.toNat .null)) "state"
          (es.getD v.toNat .null)))) "doorPosition" = some dp := by
    rw [lookup?_dictSet_ne _ "doorState" "doorPosition" _ (by decide),
        lookup?_dictSet_ne _ "doorState" "doorPosition" _ (by decide)]
    exact hdp
  unfold current_cover_position
  rw [e1]
  by_cases hc : pyEq (es.getD v.toNat .null) (.str "Closed") = true
  · simp only [hc, if_true, Except.map]
  · simp only [hc, if_false, Bool.false_eq_true]
    rw [e2]
    by_cases ho : pyEq (es.getD v.toNat .null) (.str "Open") = true
    · simp only [ho, if_true, Except.map]
    · simp only [ho, if_false, Bool.false_eq_true]
      rw [hdp2]
      simp only [hpv, Except.map]

/-- Witness for claim C9 at the concrete default state with the door in state
`"Closing"` (enum index 2): the position reported is the raw field 42. -/
theorem claim_C9_witness :
    (0 : Int) ≤ 2 ∧
    (current_cover_position (sampleState (.num 2))).map (fun r => r.2) =
      .ok (if pyEq (defaultDoorEnum.getD (2 : Int).toNat .null) (.str "Closed")
           then .num (-1)
           else if pyEq (defaultDoorEnum.getD (2 : Int).toNat .null) (.str "Open")
           then .num 100
           else .num 42) :=
  ⟨by decide,
   claim_C9_cover_position (sampleState (.num 2))
     [("state", .null), ("lastSet", .null), ("lastValue", .null),
      ("value", .num 2), ("enum", .arr defaultDoorEnum)]
     defaultDoorEnum 2
     (.obj [("lastSet", .null), ("lastValue", .null), ("value", .num 42)])
     (.num 42) (by rfl) (by rfl) (by rfl) (by decide) (by decide) (by rfl)
     (by rfl)⟩

/-! ## Claim C3 -/

/-- Claim C3, code bug.  When the server answers 401, `send_http` returns the
error dictionary after exactly one request (no retry is attempted — this half
of the claim holds), but `login()` then subscripts `resp["result"]`, which is
absent from that dictionary, so `login` raises `KeyError` instead of
returning the failure result its own error-handling design (and the claim)
call for. -/
theorem claim_C3_login_401 :
    login (fun _ => .unauthorized) = (.error .keyError, 1) := by rfl

/-! ## Claim C1 -/

/-- `pyEq` on two strings is string equality. -/
theorem pyEq_str_str (a b : String) : pyEq (.str a) (.str b) = (a == b) := rfl

/-- `parse_device_update` on an update whose `varName` differs from the
controller's device id: logged, dropped, state untouched, no exception. -/
theorem parse_device_update_wrong_device (d : String)
    (gs : List (String × JVal)) (u : JVal) (v : JVal)
    (hv : pySubscript u (.str "varName") = .ok v)
    (hne : pyEq (.str d) v = false) :
    parse_device_update d gs u = (gs, [.logWrongDevice], none) := by
  simp [parse_device_update, hv, hne]

/-- Claim C1, corrected.  An inbound update-notification frame whose embedded
`varName` differs from the controller's device id leaves the device state
model (`garage_state`) unchanged — `parse_device_update` rejects it with a
log line — but `on_message` then calls `_call_subscriber()` unconditionally,
so a subscriber notification still fires (contrary to the original claim's
"no notification fires"). -/
theorem claim_C1_foreign_update (st : CtrlState)
    (fields pf : List (String × JVal)) (v : JVal)
    (hm : lookup? fields "method" = some (.str "wskAttributeUpdateNtfy"))
    (hp : lookup? fields "params" = some (.obj pf))
    (hv : lookup? pf "varName" = some v)
    (hne : pyEq (.str st.device_id) v = false) :
    on_message st (.ok (.obj fields)) =
      ({st with sent_counter := 0},
       .ok [.logReceived, .logWrongDevice, .notify]) := by
  have hv' : pySubscript (.obj pf) (.str "varName") = .ok v := by
    simp [pySubscript, hv]
  have hparse := parse_device_update_wrong_device st.device_id
    st.garage_state (.obj pf) v hv' hne
  simp [on_message, pyContains, pySubscript, pyEq_str_str, hm, hp, hparse]

/-- Counterexample to claim C1 as stated: at a concrete foreign-device update
frame the state model is untouched but the emitted trace does contain the
subscriber notification. -/
theorem claim_C1_counterexample :
    (on_message (sampleCtrl (.num 0)) (.ok frameWrongDevice)).2 =
      .ok [.logReceived, .logWrongDevice, .notify] ∧
    (on_message (sampleCtrl (.num 0)) (.ok frameWrongDevice)).1.garage_state =
      sampleState (.num 0) :=
  ⟨by rfl, by rfl⟩

/-- Witness for the corrected claim C1 at the concrete foreign-device
frame. -/
theorem claim_C1_witness :
    lookup? [("method", JVal.str "wskAttributeUpdateNtfy"),
             ("params", .obj [("varName", .str "dev2")])] "method" =
      some (.str "wskAttributeUpdateNtfy") ∧
    on_message (sampleCtrl (.num 0))
        (.ok (.obj [("method", JVal.str "wskAttributeUpdateNtfy"),
                    ("params", .obj [("varName", .str "dev2")])])) =
      ({sampleCtrl (.num 0) with sent_counter := 0},
       .ok [.logReceived, .logWrongDevice, .notify]) :=
  ⟨by rfl,
   claim_C1_foreign_update (sampleCtrl (.num 0))
     [("method", JVal.str "wskAttributeUpdateNtfy"),
      ("params", .obj [("varName", .str "dev2")])]
     [("varName", .str "dev2")] (.str "dev2")
     (by rfl) (by rfl) (by rfl) (by rfl)⟩

/-! ## Claim C4 -/

/-- Claim C4, corrected.  A decoded JSON object matching none of the three
recognised shapes is logged and dropped without raising: the handler returns
normally, the watchdog reset is the only state change, the frame's receipt is
logged, the unknown-shape error line fires exactly when the object has
neither a `method` nor a `result` key, and no subscriber notification is
emitted.  (Frames that are not well-formed JSON, by contrast, raise — see the
counterexample.) -/
theorem claim_C4_unrecognized_frames (st : CtrlState)
    (fields : List (String × JVal)) (h : unrecognizedShape fields) :
    (on_message st (.ok (.obj fields))).1 = {st with sent_counter := 0} ∧
    ((on_message st (.ok (.obj fields))).2 = .ok [.logReceived] ∨
     (on_message st (.ok (.obj fields))).2 =
       .ok [.logReceived, .logUnknownMessage]) := by
  unfold unrecognizedShape at h
  cases hm : lookup? fields "method" with
  | some m =>
    rw [hm] at h
    refine ⟨?_, .inl ?_⟩ <;>
      simp [on_message, pyContains, pySubscript, hm, h.1, h.2]
  | none =>
    rw [hm] at h
    refine ⟨?_, .inr ?_⟩ <;>
      simp [on_message, pyContains, pySubscript, hm, h]

/-- Counterexample to claim C4 as stated: a frame that is not well-formed
JSON makes `json.loads` raise, and the exception propagates out of the
message handler instead of being logged and dropped. -/
theorem claim_C4_counterexample :
    (on_message (sampleCtrl (.num 0)) (.error .jsonDecodeError)).2 =
      .error .jsonDecodeError := by rfl

/-- Witness for the corrected claim C4 at a concrete frame with an
unrecognised `method`. -/
theorem claim_C4_witness :
    unrecognizedShape [("method", JVal.str "bogusMethod")] ∧
    ((on_message (sampleCtrl (.num 0))
        (.ok (.obj [("method", JVal.str "bogusMethod")]))).1 =
      {sampleCtrl (.num 0) with sent_counter := 0} ∧
     ((on_message (sampleCtrl (.num 0))
        (.ok (.obj [("method", JVal.str "bogusMethod")]))).2 =
        .ok [.logReceived] ∨
      (on_message (sampleCtrl (.num 0))
        (.ok (.obj [("method", JVal.str "bogusMethod")]))).2 =
        .ok [.logReceived, .logUnknownMessage])) :=
  ⟨⟨by rfl, by rfl⟩,
   claim_C4_unrecognized_frames (sampleCtrl (.num 0))
     [("method", JVal.str "bogusMethod")] ⟨by rfl, by rfl⟩⟩

/-! ## Claim C8 -/

/-- A successful `garageDoor` group write touches only the group named by the
key's module name. -/
theorem applyGroupUpdate_preserves (gs gs' : List (String × JVal))
    (m g : String) (v : JVal) (hok : applyGroupUpdate gs m v = .ok gs')
    (hne : g ≠ m) : lookup? gs' g = lookup? gs g := by
  unfold applyGroupUpdate at hok
  split at hok
  · injection hok with h; rw [h.symm]
  · split at hok
    · exact absurd hok (by simp)
    · injection hok with h
      rw [h.symm]
      exact lookup?_dictSet_ne gs m g _ hne
    · exact absurd hok (by simp)
  · injection hok with h; rw [h.symm]
  · injection hok with h; rw [h.symm]
  · exact absurd hok (by simp)

/-- A successful `garageLight` group write touches only the top-level
`garageLight` group. -/
theorem applyLightUpdate_preserves (gs gs' : List (String × JVal))
    (m g : String) (v : JVal) (hok : applyLightUpdate gs m v = .ok gs')
    (hne : g ≠ "garageLight") : lookup? gs' g = lookup? gs g := by
  unfold applyLightUpdate at hok
  split at hok
  · injection hok with h; rw [h.symm]
  · split at hok
    · exact absurd hok (by simp)
    · split at hok
      · exact absurd hok (by simp)
      · injection hok with h
        rw [h.symm]
        exact lookup?_dictSet_ne gs "garageLight" g _ hne
      · exact absurd hok (by simp)
    · exact absurd hok (by simp)
  · injection hok with h; rw [h.symm]
  · injection hok with h; rw [h.symm]
  · exact absurd hok (by simp)

/-- The key loop of `parse_device_update` never changes the value of an
attribute group that no key of the update names, provided no exception was
raised. -/
theorem parseKeys_preserves (fields : List (String × JVal)) :
    ∀ gs g, (parseKeys gs fields).2.2 = none → touchedGroup fields g = false →
    lookup? (parseKeys gs fields).1 g = lookup? gs g := by
  induction fields with
  | nil => intro gs g _ _; rfl
  | cons hd tl ih =>
    intro gs g hok ht
    obtain ⟨k, v⟩ := hd
    rw [touchedGroup, List.any_cons, Bool.or_eq_false_iff] at ht
    obtain ⟨ht1, ht2⟩ := ht
    rw [← touchedGroup] at ht2
    dsimp only at ht1
    by_cases hskip : (k == "topic" || k == "varName" || k == "id") = true
    · rw [parseKeys, if_pos hskip] at hok ⊢
      exact ih gs g hok ht2
    · rw [parseKeys, if_neg hskip] at hok ⊢
      rw [Bool.not_eq_true] at hskip
      rw [hskip, Bool.not_false, Bool.true_and] at ht1
      revert hok
      cases hmn : (pySplitDot k).get? 1 with
      | none =>
        intro hok
        simp at hok
      | some m =>
        intro hok
        dsimp only at hok ⊢
        by_cases hdoor : strContains k "garageDoor" = true
        · rw [if_pos hdoor] at hok ⊢
          rw [if_pos hdoor, moduleNameOf, hmn] at ht1
          have hne : g ≠ m := by
            intro he
            rw [he] at ht1
            simp at ht1
          revert hok
          cases happ : applyGroupUpdate gs m v with
          | error e =>
            intro hok
            simp at hok
          | ok gs1 =>
            intro hok
            dsimp only at hok ⊢
            rw [ih gs1 g hok ht2]
            exact applyGroupUpdate_preserves gs gs1 m g v happ hne
        · rw [if_neg hdoor] at hok ht1 ⊢
          by_cases hlight : strContains k "garageLight" = true
          · rw [if_pos hlight] at hok ht1 ⊢
            have hne : g ≠ "garageLight" := by
              intro he
              rw [he] at ht1
              simp at ht1
            revert hok
            cases happ : applyLightUpdate gs m v with
            | error e =>
              intro hok
              simp at hok
            | ok gs1 =>
              intro hok
              dsimp only at hok ⊢
              rw [ih gs1 g hok ht2]
              exact applyLightUpdate_preserves gs gs1 m g v happ hne
          · rw [if_neg hlight] at hok ⊢
            dsimp only at hok ⊢
            exact ih gs g hok ht2

/-- Claim C8, confirmed.  Whenever `parse_device_update` applies an update
without raising, every attribute group of `garage_state` that no dotted key
of the update names (via the `garageDoor`/`garageLight` key dispatch) holds
exactly the value it held before the update: writes go only through
`dictSet` on the groups the update mentions. -/
theorem claim_C8_sibling_isolation (d : String) (gs : List (String × JVal))
    (u : JVal) (g : String)
    (hok : (parse_device_update d gs u).2.2 = none)
    (ht : updTouches u g = false) :
    lookup? (parse_device_update d gs u).1 g = lookup? gs g := by
  cases u with
  | obj fields =>
    cases hv : lookup? fields "varName" with
    | none =>
      rw [parse_device_update] at hok
      simp [pySubscript, hv] at hok
    | some v =>
      rw [parse_device_update] at hok ⊢
      simp only [pySubscript, hv] at hok ⊢
      by_cases hne : (!pyEq (.str d) v) = true
      · rw [if_pos hne]
      · rw [if_neg hne] at hok ⊢
        exact parseKeys_preserves fields gs g hok ht
  | null => exact Option.noConfusion hok
  | bool b => exact Option.noConfusion hok
  | num n => exact Option.noConfusion hok
  | str s => exact Option.noConfusion hok
  | arr xs => exact Option.noConfusion hok

/-- Witness for claim C8: a concrete update to the door-state group leaves
the untouched sibling group `doorPosition` exactly as it was. -/
theorem claim_C8_witness :
    (parse_device_update "dev1" (sampleState (.num 0))
       (.obj [("varName", .str "dev1"), ("topic", .str "t"),
              ("garageDoor_7.doorState", .obj [("value", .num 1)])])).2.2 =
      none ∧
    lookup? (parse_device_update "dev1" (sampleState (.num 0))
       (.obj [("varName", .str "dev1"), ("topic", .str "t"),
              ("garageDoor_7.doorState", .obj [("value", .num 1)])])).1
      "doorPosition" = lookup? (sampleState (.num 0)) "doorPosition" :=
  ⟨by rfl,
   claim_C8_sibling_isolation "dev1" (sampleState (.num 0))
     (.obj [("varName", .str "dev1"), ("topic", .str "t"),
            ("garageDoor_7.doorState", .obj [("value", .num 1)])])
     "doorPosition" (by rfl) (by rfl)⟩

/-! ## Claim C10 -/

/-- Claim C10, confirmed.  Handling any inbound frame — whatever its shape,
including frames the handler ends up dropping and frames that are not
well-formed JSON or raise mid-dispatch — leaves the watchdog counter
`sent_counter` at zero: the reset `self.sent_counter = 0` is the first
statement of `on_message`, executed before `json.loads` and before any shape
check, and no later statement writes the counter. -/
theorem claim_C10_watchdog_reset (st : CtrlState)
    (loadResult : Except PyErr JVal) :
    ((on_message st loadResult).1).sent_counter = 0 := by
  unfold on_message
  cases loadResult with
  | error e => rfl
  | ok message =>
    dsimp only
    repeat' split <;> try rfl

/-! ## Claim C7 -/

/-- Claim C7, confirmed.  `connect_wss` called while the socket state is
already `Open` short-circuits: it returns `True`, performs no socket
operation (empty event trace — no thread start, no send, no close) and
leaves the whole controller state, including the device state model,
untouched. -/
theorem claim_C7_connect_idempotent (fuel : Nat) (env : WssEnv)
    (st : CtrlState) (h : st.socket_state = .sockConnected) :
    connect_wss fuel env st = (true, st, []) := by
  rw [connect_wss, if_pos h]

/-- Witness for claim C7 at a concrete connected controller. -/
theorem claim_C7_witness :
    (sampleCtrl (.num 0)).socket_state = .sockConnected ∧
    connect_wss 3 envNoCallbacks (sampleCtrl (.num 0)) =
      (true, sampleCtrl (.num 0), []) :=
  ⟨by rfl,
   claim_C7_connect_idempotent 3 envNoCallbacks (sampleCtrl (.num 0)) (by rfl)⟩

/-! ## Claim C6 -/

/-- `open_wss_thread` never sends, never emits a `.connectAttempt`, and
preserves the device state model and the watchdog counter; the resulting
socket state is the old one or `SOCK_ERROR`. -/
theorem open_wss_thread_props (env : WssEnv) (st : CtrlState) :
    (open_wss_thread env st).2.1.garage_state = st.garage_state ∧
    (open_wss_thread env st).2.1.sent_counter = st.sent_counter ∧
    ((open_wss_thread env st).2.1.socket_state = st.socket_state ∨
     (open_wss_thread env st).2.1.socket_state = .sockError) ∧
    (open_wss_thread env st).2.2.countP Event.isConnectAttempt = 0 ∧
    (open_wss_thread env st).2.2.any Event.isWsSend = false := by
  unfold open_wss_thread
  by_cases hc : (!check_credentials env st) = true
  · simp [hc, Event.isConnectAttempt, Event.isWsSend]
  · simp only [hc, Bool.false_eq_true, if_false]
    by_cases hr : env.openRaises st.time = true
    · simp [hr, Event.isConnectAttempt, Event.isWsSend]
    · by_cases ha : env.threadAlive st.time = true
      · simp [hr, ha, Event.isConnectAttempt, Event.isWsSend]
      · simp [hr, ha, Event.isConnectAttempt, Event.isWsSend]

/-- In an environment where no asynchronous callback ever fires, the poll
loop of `connect_wss` exhausts its iterations: it returns `False` and leaves
everything but the logical clock unchanged. -/
theorem connect_poll_all_fail (env : WssEnv)
    (hpoll : ∀ t, env.pollSock t = none) :
    ∀ (polls fuel : Nat) (st : CtrlState),
    st.socket_state ≠ .sockConnected →
    connect_poll fuel env polls st =
      (false, {st with time := st.time + polls}, []) := by
  intro polls
  induction polls with
  | zero =>
    intro fuel st h
    rw [connect_poll.eq_def]
    cases st
    simp
  | succ p ih =>
    intro fuel st h
    rw [connect_poll.eq_def]
    dsimp only
    simp only [hpoll, Option.getD]
    rw [if_neg (by simpa using h)]
    rw [ih fuel _ (by simpa using h)]
    cases st
    simp only [Prod.mk.injEq, CtrlState.mk.injEq, true_and, and_true]
    omega

/-- In an environment where no asynchronous callback ever fires, a
non-short-circuited `connect_wss` fails: exactly one connection attempt is
recorded, nothing is sent, and the socket state stays away from `Open` while
the device state model and watchdog counter are untouched. -/
theorem connect_wss_all_fail (fuel : Nat) (env : WssEnv) (st : CtrlState)
    (hpoll : ∀ t, env.pollSock t = none)
    (h : st.socket_state ≠ .sockConnected) :
    (connect_wss fuel env st).1 = false ∧
    (connect_wss fuel env st).2.1.socket_state ≠ .sockConnected ∧
    (connect_wss fuel env st).2.1.garage_state = st.garage_state ∧
    (connect_wss fuel env st).2.1.sent_counter = st.sent_counter ∧
    (connect_wss fuel env st).2.2.countP Event.isConnectAttempt = 1 ∧
    (connect_wss fuel env st).2.2.any Event.isWsSend = false := by
  obtain ⟨hg, hc, hs, hcnt, hsend⟩ := open_wss_thread_props env st
  have hs' : (open_wss_thread env st).2.1.socket_state ≠ .sockConnected := by
    rcases hs with hs | hs <;> rw [hs]
    · exact h
    · simp
  rw [connect_wss, if_neg h]
  by_cases ho : (open_wss_thread env st).1 = true
  · simp only [ho, if_true]
    rw [connect_poll_all_fail env hpoll WS_RETRY fuel _ hs']
    refine ⟨by trivial, hs', hg, hc, ?_, ?_⟩
    · simp [List.countP_cons, List.countP_append, Event.isConnectAttempt, hcnt]
    · simp [List.any_append, Event.isWsSend, hsend]
  · simp only [Bool.not_eq_true] at ho
    simp only [ho, Bool.false_eq_true, if_false]
    refine ⟨by trivial, hs', hg, hc, ?_, ?_⟩
    · simp [List.countP_cons, Event.isConnectAttempt, hcnt]
    · simp [Event.isWsSend, hsend]

/-- With enough fuel and no callback ever firing, the send loop of
`publish_wss` performs one failed reconnect attempt per remaining retry and
reports failure, never transmitting the frame and never touching the device
state model or the watchdog counter. -/
theorem publish_loop_all_fail (env : WssEnv) (msg : JVal)
    (hpoll : ∀ t, env.pollSock t = none) :
    ∀ (attempts fuel : Nat) (st : CtrlState), attempts ≤ fuel →
    st.socket_state ≠ .sockConnected →
    (publish_wss_loop fuel env msg attempts st).1 = false ∧
    (publish_wss_loop fuel env msg attempts st).2.1.garage_state =
      st.garage_state ∧
    (publish_wss_loop fuel env msg attempts st).2.2.countP
      Event.isConnectAttempt = attempts ∧
    (publish_wss_loop fuel env msg attempts st).2.2.any Event.isWsSend =
      false := by
  intro attempts
  induction attempts with
  | zero =>
    intro fuel st hle h
    rw [publish_wss_loop]
    simp
  | succ a ih =>
    intro fuel st hle h
    cases fuel with
    | zero => omega
    | succ f =>
      rw [publish_wss_loop, if_neg h]
      obtain ⟨c1, c2, c3, c4, c5, c6⟩ :=
        connect_wss_all_fail f env st hpoll h
      obtain ⟨r1, r2, r3, r4⟩ :=
        ih f (connect_wss f env st).2.1 (by omega) c2
      refine ⟨r1, by rw [r2, c3], ?_, ?_⟩
      · simp [List.countP_append, c5, r3]
        omega
      · simp [List.any_append, c6, r4]

/-- Claim C6, confirmed.  A `publish_wss` call entered while the socket state
is `SOCK_CLOSE`, in an environment where reconnects keep failing, performs
exactly `N_RETRY` (5) reconnect attempts, never transmits the command frame
(so a frame goes out only when a reconnect first succeeds), leaves the device
state model untouched, and returns `False` to its caller — a value, not an
exception: the embedded send path is total and the one exception `ws.send`
can raise is caught by the source.  (`send_command` awaits this result and
returns `None`.) -/
theorem claim_C6_send_while_closed (f : Nat) (env : WssEnv) (msg : JVal)
    (st : CtrlState) (hsock : st.socket_state = .sockClose)
    (hpoll : ∀ t, env.pollSock t = none) :
    (publish_wss (f + 5) env msg st).1 = false ∧
    (publish_wss (f + 5) env msg st).2.1.garage_state = st.garage_state ∧
    (publish_wss (f + 5) env msg st).2.2.countP Event.isConnectAttempt = 5 ∧
    (publish_wss (f + 5) env msg st).2.2.any Event.isWsSend = false := by
  rw [publish_wss]
  unfold watchdogCheck
  by_cases hw : st.sent_counter ≥ 5
  · simp only [hw, if_pos]
    obtain ⟨r1, r2, r3, r4⟩ := publish_loop_all_fail env msg hpoll 5 (f + 5)
      {st with sent_counter := 0, socket_state := .sockClose}
      (by omega) (by simp)
    refine ⟨by simpa using r1, by simpa using r2, ?_, ?_⟩
    · simpa [List.countP_append, List.countP_cons, Event.isConnectAttempt]
        using r3
    · simpa [List.any_append, Event.isWsSend] using r4
  · simp only [if_neg hw]
    obtain ⟨r1, r2, r3, r4⟩ := publish_loop_all_fail env msg hpoll 5 (f + 5)
      st (by omega) (by rw [hsock]; simp)
    exact ⟨by simpa using r1, by simpa using r2,
      by simpa [List.countP_append] using r3,
      by simpa [List.any_append] using r4⟩

/-- Witness for claim C6: a concrete closed controller in the
no-callback environment. -/
theorem claim_C6_witness :
    sampleClosedCtrl.socket_state = .sockClose ∧
    (∀ t, envNoCallbacks.pollSock t = none) ∧
    ((publish_wss 5 envNoCallbacks (.str "open") sampleClosedCtrl).1 =
      false ∧
     (publish_wss 5 envNoCallbacks (.str "open")
        sampleClosedCtrl).2.1.garage_state = sampleClosedCtrl.garage_state ∧
     (publish_wss 5 envNoCallbacks (.str "open")
        sampleClosedCtrl).2.2.countP Event.isConnectAttempt = 5 ∧
     (publish_wss 5 envNoCallbacks (.str "open")
        sampleClosedCtrl).2.2.any Event.isWsSend = false) :=
  ⟨by rfl, fun t => rfl,
   claim_C6_send_while_closed 0 envNoCallbacks (.str "open")
     sampleClosedCtrl (by rfl) (fun t => rfl)⟩

/-! ## Claim C5 -/

/-- A `publish_wss` call whose watchdog counter is below the threshold is
just its retry loop. -/
theorem publish_wss_eq_loop (fuel : Nat) (env : WssEnv) (msg : JVal)
    (st : CtrlState) (h : st.sent_counter < 5) :
    publish_wss fuel env msg st =
      publish_wss_loop fuel env msg N_RETRY st := by
  rw [publish_wss.eq_def]
  unfold watchdogCheck
  rw [if_neg (by omega)]
  rfl

/-- A `publish_wss` call that hits the watchdog threshold first force-closes
the socket (counter reset, `ws.close()`, state `SOCK_CLOSE`) and then runs
its retry loop from the closed state. -/
theorem publish_wss_watchdog_fire (fuel : Nat) (env : WssEnv) (msg : JVal)
    (st : CtrlState) (h : st.sent_counter ≥ 5) :
    publish_wss fuel env msg st =
      ((publish_wss_loop fuel env msg N_RETRY
          {st with sent_counter := 0, socket_state := .sockClose}).1,
       (publish_wss_loop fuel env msg N_RETRY
          {st with sent_counter := 0, socket_state := .sockClose}).2.1,
       .wsClose :: (publish_wss_loop fuel env msg N_RETRY
          {st with sent_counter := 0, socket_state := .sockClose}).2.2) := by
  rw [publish_wss.eq_def]
  unfold watchdogCheck
  rw [if_pos h]
  dsimp only
  rw [List.singleton_append]

/-- One iteration of the send loop on a connected socket with a successful
`ws.send`: the frame goes out and the watchdog counter grows by one. -/
theorem publish_loop_send (fuel : Nat) (env : WssEnv) (msg : JVal) (a : Nat)
    (st : CtrlState) (h1 : st.socket_state = .sockConnected)
    (h2 : env.sendOk st.time = true) :
    publish_wss_loop fuel env msg (a + 1) st =
      (true, {st with time := st.time + 1, sent_counter := st.sent_counter + 1},
       [.wsSend msg]) := by
  rw [publish_wss_loop.eq_def]
  dsimp only
  rw [if_pos h1, if_pos h2]

/-- One iteration of the send loop on a non-connected socket: `connect_wss`
runs, then the loop continues with one fewer attempt. -/
theorem publish_loop_reconnect (f : Nat) (env : WssEnv) (msg : JVal) (a : Nat)
    (st : CtrlState) (h : st.socket_state ≠ .sockConnected) :
    publish_wss_loop (f + 1) env msg (a + 1) st =
      ((publish_wss_loop f env msg a (connect_wss f env st).2.1).1,
       (publish_wss_loop f env msg a (connect_wss f env st).2.1).2.1,
       (connect_wss f env st).2.2 ++
         (publish_wss_loop f env msg a (connect_wss f env st).2.1).2.2) := by
  rw [publish_wss_loop.eq_def]
  dsimp only
  rw [if_neg h]

/-- A poll of the connect loop that observes `SOCK_CONNECTED` (the `on_open`
callback has fired): authenticate, subscribe, and report success. -/
theorem connect_poll_hit (f : Nat) (env : WssEnv) (p : Nat) (st : CtrlState)
    (hpoll : env.pollSock st.time = some .sockConnected) :
    connect_poll (f + 1) env (p + 1) st =
      (true,
       (subscribe_to_notifications f env
         (publish_wss f env
           (authFrame st.username st.api_key)
           {st with time := st.time + 1,
                    socket_state := .sockConnected}).2.1).2.1,
       (publish_wss f env (authFrame st.username st.api_key)
          {st with time := st.time + 1, socket_state := .sockConnected}).2.2 ++
       (subscribe_to_notifications f env
         (publish_wss f env (authFrame st.username st.api_key)
           {st with time := st.time + 1,
                    socket_state := .sockConnected}).2.1).2.2) := by
  rw [connect_poll.eq_def]
  dsimp only
  rw [hpoll]
  dsimp only [Option.getD]
  rw [if_pos rfl]

/-- Claim C5, confirmed.  When the watchdog counter has reached the threshold
of 5 consecutive unacknowledged sends, the next `publish_wss` call (the
subsequent `sendCommand`): (a) force-closes the socket — `ws.close()` is
issued and the connection state transitions to `SOCK_CLOSE` — and then, in an
environment whose first reconnect attempt succeeds, (b) performs exactly one
reconnect attempt (a single `.connectAttempt` in the trace, which carries the
auth and subscribe frames of the reconnect handshake) before resending the
payload, which is the last event of the trace. -/
theorem claim_C5_watchdog_forced_close (f : Nat) (env : WssEnv) (msg : JVal)
    (st : CtrlState)
    (hsock : st.socket_state = .sockConnected)
    (hcnt : st.sent_counter = 5)
    (hkey : apiKeyTruthy st.api_key = true)
    (hopen : env.openRaises st.time = false)
    (halive : env.threadAlive st.time = true)
    (hpoll : env.pollSock (st.time + 1) = some .sockConnected)
    (hsend1 : env.sendOk (st.time + 2) = true)
    (hsend2 : env.sendOk (st.time + 3) = true)
    (hsend3 : env.sendOk (st.time + 4) = true) :
    (watchdogCheck st).1.socket_state = .sockClose ∧
    (watchdogCheck st).2 = [.wsClose] ∧
    publish_wss (f + 2) env msg st =
      (true,
       {st with sent_counter := 3, socket_state := .sockConnected,
                time := st.time + 5,
                garage_state :=
                  dictSet st.garage_state "is_available" (.bool true)},
       [.wsClose, .connectAttempt, .openSocketThread,
        .wsSend (authFrame st.username st.api_key),
        .wsSend (subscribeFrame st.device_id), .notify, .wsSend msg]) := by
  obtain ⟨sk, cnt, gst, dev, usr, key, tm⟩ := st
  dsimp only at hsock hcnt hkey hopen halive hpoll hsend1 hsend2 hsend3 ⊢
  subst hsock
  subst hcnt
  refine ⟨by rfl, by rfl, ?_⟩
  have e_open : open_wss_thread env ⟨.sockClose, 0, gst, dev, usr, key, tm⟩ =
      (true, ⟨.sockClose, 0, gst, dev, usr, key, tm + 1⟩,
       [.openSocketThread]) := by
    unfold open_wss_thread check_credentials
    dsimp only
    rw [hkey]
    simp [hopen, halive]
  have e_auth : publish_wss f env (authFrame usr key)
      ⟨.sockConnected, 0, gst, dev, usr, key, tm + 2⟩ =
      (true, ⟨.sockConnected, 1, gst, dev, usr, key, tm + 3⟩,
       [.wsSend (authFrame usr key)]) := by
    rw [publish_wss_eq_loop f env _ _ (by show (0 : Nat) < 5; decide)]
    exact publish_loop_send f env _ 4 _ (by rfl) (by simpa using hsend1)
  have e_sub : subscribe_to_notifications f env
      ⟨.sockConnected, 1, gst, dev, usr, key, tm + 3⟩ =
      (true,
       ⟨.sockConnected, 2, dictSet gst "is_available" (.bool true), dev, usr,
        key, tm + 4⟩,
       [.wsSend (subscribeFrame dev), .notify]) := by
    have e1 : publish_wss f env (subscribeFrame dev)
        ⟨.sockConnected, 1, gst, dev, usr, key, tm + 3⟩ =
        (true, ⟨.sockConnected, 2, gst, dev, usr, key, tm + 4⟩,
         [.wsSend (subscribeFrame dev)]) := by
      rw [publish_wss_eq_loop f env _ _ (by show (1 : Nat) < 5; decide)]
      exact publish_loop_send f env _ 4 _ (by rfl) (by simpa using hsend2)
    rw [subscribe_to_notifications.eq_def, e1]
    rfl
  have e_poll : connect_poll (f + 1) env WS_RETRY
      ⟨.sockClose, 0, gst, dev, usr, key, tm + 1⟩ =
      (true,
       ⟨.sockConnected, 2, dictSet gst "is_available" (.bool true), dev, usr,
        key, tm + 4⟩,
       [.wsSend (authFrame usr key), .wsSend (subscribeFrame dev),
        .notify]) := by
    have h9 := connect_poll_hit f env 9
      ⟨.sockClose, 0, gst, dev, usr, key, tm + 1⟩ (by simpa using hpoll)
    dsimp only at h9
    rw [show tm + 1 + 1 = tm + 2 from rfl] at h9
    rw [e_auth] at h9
    dsimp only at h9
    rw [e_sub] at h9
    dsimp only at h9
    rw [show WS_RETRY = 9 + 1 from rfl, h9]
    rfl
  have e_connect : connect_wss (f + 1) env
      ⟨.sockClose, 0, gst, dev, usr, key, tm⟩ =
      (true,
       ⟨.sockConnected, 2, dictSet gst "is_available" (.bool true), dev, usr,
        key, tm + 4⟩,
       [.connectAttempt, .openSocketThread, .wsSend (authFrame usr key),
        .wsSend (subscribeFrame dev), .notify]) := by
    rw [connect_wss.eq_def]
    rw [if_neg (by simp)]
    dsimp only
    rw [e_open]
    dsimp only
    rw [if_pos rfl]
    rw [e_poll]
    rfl
  have e_final : publish_wss_loop (f + 1) env msg 4
      ⟨.sockConnected, 2, dictSet gst "is_available" (.bool true), dev, usr,
       key, tm + 4⟩ =
      (true,
       ⟨.sockConnected, 3, dictSet gst "is_available" (.bool true), dev, usr,
        key, tm + 5⟩,
       [.wsSend msg]) :=
    publish_loop_send (f + 1) env msg 3 _ (by rfl) (by simpa using hsend3)
  rw [publish_wss_watchdog_fire (f + 2) env msg _ (by show (5 : Nat) ≥ 5; decide)]
  dsimp only
  rw [show (f + 2 : Nat) = f + 1 + 1 from rfl, show (N_RETRY = 4 + 1) from rfl]
  rw [publish_loop_reconnect (f + 1) env msg 4 _ (by simp)]
  rw [e_connect]
  dsimp only
  rw [e_final]
  rfl

/-- Witness for claim C5 at the concrete stalled controller in the
quick-reconnect environment. -/
theorem claim_C5_witness :
    sampleStalledCtrl.socket_state = .sockConnected ∧
    sampleStalledCtrl.sent_counter = 5 ∧
    (watchdogCheck sampleStalledCtrl).1.socket_state = .sockClose ∧
    publish_wss 2 envQuickReconnect (.str "cmd") sampleStalledCtrl =
      (true,
       {sampleStalledCtrl with
          sent_counter := 3, socket_state := .sockConnected,
          time := sampleStalledCtrl.time + 5,
          garage_state := dictSet sampleStalledCtrl.garage_state
            "is_available" (.bool true)},
       [.wsClose, .connectAttempt, .openSocketThread,
        .wsSend (authFrame sampleStalledCtrl.username
                   sampleStalledCtrl.api_key),
        .wsSend (subscribeFrame sampleStalledCtrl.device_id), .notify,
        .wsSend (.str "cmd")]) := by
  have h := claim_C5_watchdog_forced_close 0 envQuickReconnect (.str "cmd")
    sampleStalledCtrl (by rfl) (by rfl) (by rfl) (by rfl) (by rfl) (by rfl)
    (by rfl) (by rfl) (by rfl)
  exact ⟨by rfl, by rfl, h.1, h.2.2⟩

end RyobiGarage
